import Mathlib

/-!
Verification of the authentication core of the `pragmatic-service-templete`
repository: a shallow embedding of `src/utils/security.py`,
`src/core/models/user.py`, `src/core/services/auth_services.py` and
`src/adapters/database/postgres/repositories.py`, together with proofs of
the behavioral claims about them.

Modelling conventions:
  * Time is `Nat` (Unix seconds).  `datetime.utcnow()` becomes an explicit
    `now : Nat` parameter threaded to every function that reads the clock.
  * The bcrypt core (inside the `passlib` library, not part of this
    repository's sources) is an abstract parameter
    `H : String → String → String` mapping `(salt, plaintext)` to the raw
    hash output; digest strings are modelled symbolically by `DigestStr`.
  * JWT token strings (produced by the `python-jose` library, also not in
    this repository's sources) are modelled symbolically by `Token`; an
    HMAC signature is modelled as the ideal MAC `Sig` that is determined
    by, and determines, the secret, the algorithm and the signed payload.
  * The async repository calls are sequential in the source (each awaited
    in order), so they are embedded as ordinary state-passing functions.
-/

/-- A JSON value as it appears inside a JWT claims payload: the source only
ever stores strings (`sub`) and integral timestamps (`exp`). -/
inductive JValue where
  | str (s : String)
  | num (n : Nat)
deriving DecidableEq, Repr

/-- A claims mapping (`Dict[str, Any]` in `security.py`), as an association
list. -/
abbrev Claims := List (String × JValue)

/-- Modelled from the spec: the HMAC signature computed by `jwt.encode`
inside the `python-jose` library (not in the repository sources).  An ideal
MAC is a value determined by, and determining, the secret, the algorithm
name and the signed payload; verification is equality of recomputed MACs. -/
structure Sig where
  secret : String
  alg : String
  content : Claims
deriving DecidableEq, Repr

/-- Modelled from the spec: a JWT token string (three dot-joined base64url
segments).  A string is either a structurally well-formed token — carrying
the header's algorithm name, the decoded payload and the signature — or
malformed. -/
inductive Token where
  | jwt (header_alg : String) (payload : Claims) (sig : Sig)
  | malformed (raw : String)
deriving DecidableEq, Repr

/-- Modelled from the spec: a password digest string.  A string is either a
well-formed self-contained bcrypt digest — carrying the embedded salt and
the raw hash output — or malformed (`raw`). -/
inductive DigestStr where
  | bcrypt (salt : String) (body : String)
  | raw (s : String)
deriving DecidableEq, Repr

/-- The application settings consumed by `utils/security.py`
(`config/settings.py`): JWT secret, algorithm and token TTL.  Defaults
mirror the `Field(default=...)` values. -/
structure Settings where
  SECRET_KEY : String
  ALGORITHM : String := "HS256"
  ACCESS_TOKEN_EXPIRE_MINUTES : Nat := 30
deriving DecidableEq, Repr

namespace security

/-- Source `utils/security.py` / `get_password_hash` (line 50): hash a plain
password with bcrypt.  Modelled from the spec for the library part: the
digest embeds the fresh `salt` and the hash core's output `H salt password`.
-/
def get_password_hash (H : String → String → String) (salt : String)
    (password : String) : DigestStr :=
  DigestStr.bcrypt salt (H salt password)

/-- Source `utils/security.py` / `verify_password` (line 29): recompute the hash
using the salt embedded in the digest and compare; a malformed digest
verifies as false.  Modelled from the spec for the library part
(`pwd_context.verify`). -/
def verify_password (H : String → String → String) (plain_password : String)
    (hashed_password : DigestStr) : Bool :=
  match hashed_password with
  | DigestStr.bcrypt salt body => H salt plain_password == body
  | DigestStr.raw _ => false

/-- Replace (or add) the `"exp"` claim: `to_encode.update({"exp": expire})`
in `create_access_token`. -/
def setExp (c : Claims) (e : Nat) : Claims :=
  c.filter (fun kv => kv.1 != "exp") ++ [("exp", JValue.num e)]

/-- Read the `"exp"` claim back out of a payload. -/
def getExp (c : Claims) : Option Nat :=
  match c.find? (fun kv => kv.1 == "exp") with
  | some (_, JValue.num e) => some e
  | _ => none

/-- Source `utils/security.py` / `create_access_token` (line 70): copy the data,
set `exp := now + expires_delta`, and sign with the configured secret and
algorithm.  The source guards the delta with `if expires_delta:`, a Python
truthiness test, so both an omitted delta and a zero delta
(`timedelta(0)` is falsy) fall back to `ACCESS_TOKEN_EXPIRE_MINUTES`.
`expires_delta` is in seconds. -/
def create_access_token (cfg : Settings) (data : Claims)
    (expires_delta : Option Nat) (now : Nat) : Token :=
  let expire : Nat :=
    match expires_delta with
    | some d =>
      if d ≠ 0 then now + d
      else now + cfg.ACCESS_TOKEN_EXPIRE_MINUTES * 60
    | none => now + cfg.ACCESS_TOKEN_EXPIRE_MINUTES * 60
  let to_encode := setExp data expire
  Token.jwt cfg.ALGORITHM to_encode
    ⟨cfg.SECRET_KEY, cfg.ALGORITHM, to_encode⟩

/-- Source `utils/security.py` / `decode_access_token` (line 109): verify the
signature against the configured secret and algorithm and check expiry;
every failure (malformed structure, algorithm mismatch, bad signature,
expired) is caught and returned as `none`.  Modelled from the spec for the
library part (`jwt.decode`): valid while `now ≤ exp`. -/
def decode_access_token (cfg : Settings) (token : Token) (now : Nat) :
    Option Claims :=
  match token with
  | Token.malformed _ => none
  | Token.jwt header_alg payload sig =>
    if header_alg ≠ cfg.ALGORITHM then none
    else if sig ≠ (⟨cfg.SECRET_KEY, cfg.ALGORITHM, payload⟩ : Sig) then none
    else
      match getExp payload with
      | none => none
      | some e => if now ≤ e then some payload else none

end security

/-- Source `core/models/user.py` / `User`: the pure domain entity.  `id` is a
UUID rendered as a string, optional before creation; timestamps are
optional and store-assigned. -/
structure User where
  id : Option String
  email : String
  hashed_password : DigestStr
  full_name : String
  is_active : Bool := true
  is_superuser : Bool := false
  created_at : Option Nat := none
  updated_at : Option Nat := none
deriving DecidableEq, Repr

/-- Source `adapters/database/postgres/models.py` / `UserModel`: a row of the
`users` table.  `id` is the store-assigned key (a `Nat` standing for the
generated UUID); `created_at`/`updated_at` are non-nullable and
store-assigned (`default`/`onupdate` = `datetime.utcnow`). -/
structure UserRow where
  id : Nat
  email : String
  hashed_password : DigestStr
  full_name : String
  is_active : Bool
  is_superuser : Bool
  created_at : Nat
  updated_at : Nat
deriving DecidableEq, Repr

/-- The PostgreSQL user store: the rows of the `users` table plus the
generator for the next fresh id. -/
structure Store where
  rows : List UserRow
  nextId : Nat
deriving DecidableEq, Repr

namespace PostgresUserRepository

/-- Source `repositories.py` / `_to_domain` (line 173): convert a database row to
the domain `User`. -/
def to_domain (r : UserRow) : User :=
  { id := some (toString r.id)
    email := r.email
    hashed_password := r.hashed_password
    full_name := r.full_name
    is_active := r.is_active
    is_superuser := r.is_superuser
    created_at := some r.created_at
    updated_at := some r.updated_at }

/-- Source `repositories.py` / `get_by_email` (line 89): `SELECT ... WHERE
email = :email`, converted to the domain model; `none` when absent. -/
def get_by_email (s : Store) (email : String) : Option User :=
  (s.rows.find? (fun r => r.email == email)).map to_domain

/-- Source `repositories.py` / `create` (line 101): insert a fresh row built from
the domain user's payload fields; the store assigns `id` and both
timestamps, then the row is read back as a domain `User`. -/
def create (s : Store) (user : User) (now : Nat) : Store × User :=
  let row : UserRow :=
    { id := s.nextId
      email := user.email
      hashed_password := user.hashed_password
      full_name := user.full_name
      is_active := user.is_active
      is_superuser := user.is_superuser
      created_at := now
      updated_at := now }
  ({ rows := s.rows ++ [row], nextId := s.nextId + 1 }, to_domain row)

/-- The row as rewritten by `update`: the four assigned columns take the
argument's values and the `onupdate` clock refreshes `updated_at`; every
other column keeps its stored value. -/
def updatedRow (r : UserRow) (user : User) (now : Nat) : UserRow :=
  { r with
    email := user.email
    full_name := user.full_name
    is_active := user.is_active
    is_superuser := user.is_superuser
    updated_at := now }

/-- Source `repositories.py` / `update` (line 131): look the row up by id
(`ValueError` when absent, modelled as `Except.error`), assign `email`,
`full_name`, `is_active`, `is_superuser` from the argument, and commit —
which also fires the column's `onupdate` clock on `updated_at`. -/
def update (s : Store) (user : User) (now : Nat) :
    Except String (Store × User) :=
  match s.rows.find? (fun r => user.id == some (toString r.id)) with
  | none => Except.error "user not found"
  | some r =>
    let r2 := updatedRow r user now
    Except.ok
      ({ s with rows := s.rows.map (fun q => if q.id == r.id then r2 else q) },
       to_domain r2)

end PostgresUserRepository

/-- Source `core/exceptions` (module referenced by `auth_services.py`, not present
under the sources).  Modelled from the spec: `DuplicateEmail` is the only
named failure `register` raises. -/
inductive AuthError where
  | DuplicateEmail (msg : String)
deriving DecidableEq, Repr

namespace AuthService

/-- The `User(...)` construction inside `auth_services.py` / `register`
(line 94): the user handed to the store's `create`, with the hashed
password, `is_active = True`, `is_superuser = False` and unset
id/timestamps. -/
def new_user (H : String → String → String) (salt : String)
    (email password full_name : String) : User :=
  { id := none
    email := email
    hashed_password := security.get_password_hash H salt password
    full_name := full_name
    is_active := true
    is_superuser := false
    created_at := none
    updated_at := none }

/-- Source `auth_services.py` / `register` (line 58): reject a duplicate email,
else hash the password, build the new user and persist it.  The second
component is the store after the call. -/
def register (H : String → String → String) (salt : String) (s : Store)
    (email password full_name : String) (now : Nat) :
    Except AuthError User × Store :=
  match PostgresUserRepository.get_by_email s email with
  | some _ =>
    (Except.error (AuthError.DuplicateEmail
      ("Email " ++ email ++ " is already registered")), s)
  | none =>
    let res := PostgresUserRepository.create s
      (new_user H salt email password full_name) now
    (Except.ok res.2, res.1)

/-- Source `auth_services.py` / `authenticate` (line 108): look the user up by
email; missing user, password mismatch and inactive account all return
`none`. -/
def authenticate (H : String → String → String) (s : Store)
    (email password : String) : Option User :=
  match PostgresUserRepository.get_by_email s email with
  | none => none
  | some user =>
    if ¬ security.verify_password H password user.hashed_password then none
    else if ¬ user.is_active then none
    else some user

/-- Source `auth_services.py` / `authenticate`, state-passing form: each
repository call is paired with the store it leaves behind (`get_by_email`
runs a `SELECT` and leaves the store as it found it). -/
def authenticateSt (H : String → String → String) (s : Store)
    (email password : String) : Option User × Store :=
  let lookup : Option User × Store :=
    (PostgresUserRepository.get_by_email s email, s)
  match lookup with
  | (none, s1) => (none, s1)
  | (some user, s1) =>
    if ¬ security.verify_password H password user.hashed_password then (none, s1)
    else if ¬ user.is_active then (none, s1)
    else (some user, s1)

/-- Source `auth_services.py` / `create_access_token` (line 148): delegate to the
token codec with `{"sub": user_id}` and the settings' default TTL. -/
def create_access_token (cfg : Settings) (user_id : String) (now : Nat) :
    Token :=
  security.create_access_token cfg [("sub", JValue.str user_id)]
    (some (cfg.ACCESS_TOKEN_EXPIRE_MINUTES * 60)) now

end AuthService

/-! ## Helper lemmas -/

theorem find_setExp (c : Claims) (e : Nat) :
    List.find? (fun kv => kv.1 == "exp") (security.setExp c e)
      = some ("exp", JValue.num e) := by
  induction c with
  | nil => rfl
  | cons kv t ih =>
    by_cases h : kv.1 = "exp"
    · simp only [security.setExp, List.filter_cons, bne, h] at ih ⊢
      exact ih
    · have hne : (kv.1 != "exp") = true := by simpa [bne] using h
      simp only [security.setExp, List.filter_cons, hne, if_true,
        List.cons_append, List.find?_cons] at ih ⊢
      have hbe : (kv.1 == "exp") = false := by simpa using h
      simp only [hbe]
      exact ih

theorem getExp_setExp (c : Claims) (e : Nat) :
    security.getExp (security.setExp c e) = some e := by
  unfold security.getExp
  rw [find_setExp]

/-! ## Claim theorems -/

/-- C5: for every plaintext `p`, `verify_password p (get_password_hash p)`
is true; and for distinct plaintexts `p1 ≠ p2`,
`verify_password p1 (get_password_hash p2)` is false, up to a collision of
the underlying hash core (the claim's negligible-collision proviso). -/
theorem C5_hash_verify (H : String → String → String) (salt p1 p2 : String) :
    security.verify_password H p1 (security.get_password_hash H salt p1)
      = true ∧
    (p1 ≠ p2 → H salt p1 ≠ H salt p2 →
      security.verify_password H p1 (security.get_password_hash H salt p2)
        = false) := by
  constructor
  · simp [security.verify_password, security.get_password_hash]
  · intro _ hcoll
    simp [security.verify_password, security.get_password_hash, hcoll]

/-- Witness for C5 at a concrete hash core, salt and plaintexts. -/
theorem C5_hash_verify_witness :
    security.verify_password (fun s p => s ++ p) "pw1"
        (security.get_password_hash (fun s p => s ++ p) "sa" "pw1") = true ∧
    security.verify_password (fun s p => s ++ p) "pw1"
        (security.get_password_hash (fun s p => s ++ p) "sa" "pw2") = false := by
  refine ⟨(C5_hash_verify (fun s p => s ++ p) "sa" "pw1" "pw2").1, ?_⟩
  exact (C5_hash_verify (fun s p => s ++ p) "sa" "pw1" "pw2").2
    (by decide) (by decide)

/-- C6: `verify_password` is total on every digest string: a malformed
digest yields `false` (never an error), and a well-formed digest whose
recomputed hash does not match yields `false`. -/
theorem C6_verify_total (H : String → String → String) (p : String) :
    (∀ s, security.verify_password H p (DigestStr.raw s) = false) ∧
    (∀ salt body, H salt p ≠ body →
      security.verify_password H p (DigestStr.bcrypt salt body) = false) := by
  constructor
  · intro s; rfl
  · intro salt body hne
    simp [security.verify_password, hne]

/-- Witness for C6 at a concrete hash core, plaintext and digests. -/
theorem C6_verify_total_witness :
    security.verify_password (fun s p => s ++ p) "pw"
        (DigestStr.raw "not-a-bcrypt-digest") = false ∧
    security.verify_password (fun s p => s ++ p) "pw"
        (DigestStr.bcrypt "sa" "other") = false := by
  refine ⟨(C6_verify_total (fun s p => s ++ p) "pw").1 "not-a-bcrypt-digest", ?_⟩
  exact (C6_verify_total (fun s p => s ++ p) "pw").2 "sa" "other" (by decide)

/-- C1: `authenticate` returns a user exactly when the email lookup finds
that user, the password verifies against its stored hash, and the account
is active; in every other case (unknown email, password mismatch, inactive
account) the result is the single indistinguishable value `none`. -/
theorem C1_authenticate_characterization (H : String → String → String)
    (s : Store) (email password : String) :
    (∀ u, AuthService.authenticate H s email password = some u ↔
      (PostgresUserRepository.get_by_email s email = some u ∧
       security.verify_password H password u.hashed_password = true ∧
       u.is_active = true)) ∧
    ((¬ ∃ u, PostgresUserRepository.get_by_email s email = some u ∧
        security.verify_password H password u.hashed_password = true ∧
        u.is_active = true) →
      AuthService.authenticate H s email password = none) := by
  have hchar : ∀ u, AuthService.authenticate H s email password = some u ↔
      (PostgresUserRepository.get_by_email s email = some u ∧
       security.verify_password H password u.hashed_password = true ∧
       u.is_active = true) := by
    intro u
    unfold AuthService.authenticate
    cases hf : PostgresUserRepository.get_by_email s email with
    | none => simp
    | some v =>
      by_cases hv : security.verify_password H password v.hashed_password
      · by_cases ha : v.is_active
        · simp only [hv, ha]
          constructor
          · rintro h
            simp at h
            subst h
            exact ⟨rfl, hv, ha⟩
          · rintro ⟨h1, _, _⟩
            simp at h1
            subst h1
            simp
        · simp only [hv, ha]
          constructor
          · intro h; simp at h
          · rintro ⟨h1, _, h3⟩
            injection h1 with h1
            subst h1
            exact absurd h3 (by simpa using ha)
      · constructor
        · intro h
          simp [hv] at h
        · rintro ⟨h1, h2, _⟩
          injection h1 with h1
          subst h1
          exact absurd h2 (by simpa using hv)
  refine ⟨hchar, ?_⟩
  intro hno
  cases hres : AuthService.authenticate H s email password with
  | none => rfl
  | some u => exact absurd ⟨u, (hchar u).mp hres⟩ hno

/-- Witness for C1 at a concrete store: the only user's password does not
verify, so authentication returns `none`. -/
theorem C1_authenticate_witness :
    AuthService.authenticate (fun s p => s ++ p)
      ⟨[⟨1, "a@x.com", DigestStr.bcrypt "sa" "sapw", "A", true, false, 0, 0⟩], 2⟩
      "a@x.com" "wrong" = none := by
  exact (C1_authenticate_characterization (fun s p => s ++ p)
      ⟨[⟨1, "a@x.com", DigestStr.bcrypt "sa" "sapw", "A", true, false, 0, 0⟩], 2⟩
      "a@x.com" "wrong").2
    (by decide)

/-- C10: `authenticate` only reads the store (a single `get_by_email`):
the store after the call is the store before it, on every path, and the
state-passing form computes the same result as `authenticate`. -/
theorem C10_authenticate_frame (H : String → String → String) (s : Store)
    (email password : String) :
    (AuthService.authenticateSt H s email password).2 = s ∧
    (AuthService.authenticateSt H s email password).1
      = AuthService.authenticate H s email password := by
  unfold AuthService.authenticateSt AuthService.authenticate
  cases PostgresUserRepository.get_by_email s email with
  | none => exact ⟨rfl, rfl⟩
  | some u =>
    by_cases hv : security.verify_password H password u.hashed_password
    · by_cases ha : u.is_active <;> simp [hv, ha]
    · simp [hv]

/-- C3 counterexample: the source guards the caller's delta with
`if expires_delta:`, a truthiness test, and `timedelta(0)` is falsy — so a
zero TTL falls back to the default `ACCESS_TOKEN_EXPIRE_MINUTES` and the
token is still valid well after the requested TTL has elapsed: at
`ttl = 0`, `now = 100`, decoding at `t = 200 > now + ttl` returns the
claims (with `exp = 100 + 30 * 60 = 1900`), not the invalid result the
claim demands. -/
theorem C3_token_roundtrip_counterexample :
    100 + 0 < 200 ∧
    security.decode_access_token ⟨"sk", "HS256", 30⟩
      (security.create_access_token ⟨"sk", "HS256", 30⟩
        [("sub", JValue.str "u1")] (some 0) 100) 200
      = some [("sub", JValue.str "u1"), ("exp", JValue.num 1900)] := by
  decide

/-- C3 (amended): for every nonzero `ttl` the token codec round-trips —
decoding an encoded token with the same settings at or before the computed
expiry returns the original claims augmented with `exp = now + ttl`, and
decoding after the expiry returns `none`; decoding under a different
secret returns `none` for every `ttl`; and a zero delta is falsy in the
source's `if expires_delta:` guard, so encoding with `ttl = 0` coincides
with omitting the expiry argument (the default TTL applies). -/
theorem C3_token_roundtrip (cfg : Settings) (claims : Claims)
    (ttl now t : Nat) :
    (ttl ≠ 0 → t ≤ now + ttl →
      security.decode_access_token cfg
        (security.create_access_token cfg claims (some ttl) now) t
        = some (security.setExp claims (now + ttl))) ∧
    (ttl ≠ 0 → now + ttl < t →
      security.decode_access_token cfg
        (security.create_access_token cfg claims (some ttl) now) t = none) ∧
    (∀ secret2, secret2 ≠ cfg.SECRET_KEY →
      security.decode_access_token { cfg with SECRET_KEY := secret2 }
        (security.create_access_token cfg claims (some ttl) now) t = none) ∧
    security.create_access_token cfg claims (some 0) now
      = security.create_access_token cfg claims none now := by
  refine ⟨?_, ?_, ?_, ?_⟩
  · intro httl ht
    simp [security.create_access_token, security.decode_access_token,
      getExp_setExp, httl, ht]
  · intro httl ht
    simp [security.create_access_token, security.decode_access_token,
      getExp_setExp, httl, Nat.not_le.mpr ht]
  · intro secret2 hne
    simp [security.create_access_token, security.decode_access_token]
    intro h
    exact absurd h.symm hne
  · simp [security.create_access_token]

/-- Witness for C3 at concrete settings, claims, a nonzero TTL and
concrete clock values. -/
theorem C3_token_roundtrip_witness :
    security.decode_access_token ⟨"sk", "HS256", 30⟩
      (security.create_access_token ⟨"sk", "HS256", 30⟩
        [("sub", JValue.str "u1")] (some 60) 100) 120
      = some [("sub", JValue.str "u1"), ("exp", JValue.num 160)] ∧
    security.decode_access_token ⟨"sk", "HS256", 30⟩
      (security.create_access_token ⟨"sk", "HS256", 30⟩
        [("sub", JValue.str "u1")] (some 60) 100) 200 = none ∧
    security.decode_access_token ⟨"other", "HS256", 30⟩
      (security.create_access_token ⟨"sk", "HS256", 30⟩
        [("sub", JValue.str "u1")] (some 60) 100) 120 = none ∧
    security.create_access_token ⟨"sk", "HS256", 30⟩
      [("sub", JValue.str "u1")] (some 0) 100
      = security.create_access_token ⟨"sk", "HS256", 30⟩
          [("sub", JValue.str "u1")] none 100 := by
  have h := C3_token_roundtrip ⟨"sk", "HS256", 30⟩
    [("sub", JValue.str "u1")] 60 100 120
  have h2 := C3_token_roundtrip ⟨"sk", "HS256", 30⟩
    [("sub", JValue.str "u1")] 60 100 200
  exact ⟨h.1 (by decide) (by decide), h2.2.1 (by decide) (by decide),
    h.2.2.1 "other" (by decide), h.2.2.2⟩

/-- C4: `decode_access_token` is total: on any input it returns either the
claims or `none`, and each of the four rejection causes — malformed
structure, algorithm mismatch, signature mismatch, expiry — yields `none`
rather than a propagated failure. -/
theorem C4_decode_rejections (cfg : Settings) (now : Nat) :
    (∀ tok, security.decode_access_token cfg tok now = none ∨
      ∃ c, security.decode_access_token cfg tok now = some c) ∧
    (∀ raw, security.decode_access_token cfg (Token.malformed raw) now
      = none) ∧
    (∀ halg payload sig, halg ≠ cfg.ALGORITHM →
      security.decode_access_token cfg (Token.jwt halg payload sig) now
        = none) ∧
    (∀ halg payload sig,
      sig ≠ (⟨cfg.SECRET_KEY, cfg.ALGORITHM, payload⟩ : Sig) →
      security.decode_access_token cfg (Token.jwt halg payload sig) now
        = none) ∧
    (∀ payload sig e, security.getExp payload = some e → e < now →
      security.decode_access_token cfg
        (Token.jwt cfg.ALGORITHM payload sig) now = none) := by
  refine ⟨?_, ?_, ?_, ?_, ?_⟩
  · intro tok
    cases hres : security.decode_access_token cfg tok now with
    | none => exact Or.inl rfl
    | some c => exact Or.inr ⟨c, rfl⟩
  · intro raw; rfl
  · intro halg payload sig hne
    simp [security.decode_access_token, hne]
  · intro halg payload sig hne
    by_cases halgeq : halg = cfg.ALGORITHM
    · subst halgeq
      simp [security.decode_access_token, hne]
    · simp [security.decode_access_token, halgeq]
  · intro payload sig e hexp hlt
    by_cases hsig : sig = (⟨cfg.SECRET_KEY, cfg.ALGORITHM, payload⟩ : Sig)
    · simp [security.decode_access_token, hsig, hexp, Nat.not_le.mpr hlt]
    · simp [security.decode_access_token, hsig]

/-- Witness for C4: concrete rejections of a malformed token, a token with
a wrong header algorithm, a forged signature, and an expired token. -/
theorem C4_decode_rejections_witness :
    security.decode_access_token ⟨"sk", "HS256", 30⟩
      (Token.malformed "garbage") 0 = none ∧
    security.decode_access_token ⟨"sk", "HS256", 30⟩
      (Token.jwt "none" [("exp", JValue.num 99)]
        ⟨"sk", "none", [("exp", JValue.num 99)]⟩) 0 = none ∧
    security.decode_access_token ⟨"sk", "HS256", 30⟩
      (Token.jwt "HS256" [("exp", JValue.num 99)]
        ⟨"forged", "HS256", [("exp", JValue.num 99)]⟩) 0 = none ∧
    security.decode_access_token ⟨"sk", "HS256", 30⟩
      (Token.jwt "HS256" [("exp", JValue.num 99)]
        ⟨"sk", "HS256", [("exp", JValue.num 99)]⟩) 100 = none := by
  have h := C4_decode_rejections ⟨"sk", "HS256", 30⟩ 0
  have h100 := C4_decode_rejections ⟨"sk", "HS256", 30⟩ 100
  refine ⟨h.2.1 "garbage", ?_, ?_, ?_⟩
  · exact h.2.2.1 "none" [("exp", JValue.num 99)]
      ⟨"sk", "none", [("exp", JValue.num 99)]⟩ (by decide)
  · exact h.2.2.2.1 "HS256" [("exp", JValue.num 99)]
      ⟨"forged", "HS256", [("exp", JValue.num 99)]⟩ (by decide)
  · exact h100.2.2.2.2 [("exp", JValue.num 99)]
      ⟨"sk", "HS256", [("exp", JValue.num 99)]⟩ 99 (by decide) (by decide)

/-- C8: the service's `create_access_token` is exactly the codec's
`create_access_token` on `{"sub": user_id}` under the default TTL, with no
store argument anywhere in its signature; passing the settings TTL
explicitly coincides with omitting the delta, the encoded expiry is
`now + ACCESS_TOKEN_EXPIRE_MINUTES * 60`, and the settings default for
that constant is 30 minutes. -/
theorem C8_issue_token_default (cfg : Settings) (user_id : String)
    (now : Nat) :
    AuthService.create_access_token cfg user_id now
      = security.create_access_token cfg [("sub", JValue.str user_id)]
          none now ∧
    AuthService.create_access_token cfg user_id now
      = Token.jwt cfg.ALGORITHM
          (security.setExp [("sub", JValue.str user_id)]
            (now + cfg.ACCESS_TOKEN_EXPIRE_MINUTES * 60))
          ⟨cfg.SECRET_KEY, cfg.ALGORITHM,
            security.setExp [("sub", JValue.str user_id)]
              (now + cfg.ACCESS_TOKEN_EXPIRE_MINUTES * 60)⟩ ∧
    ({ SECRET_KEY := cfg.SECRET_KEY } : Settings).ACCESS_TOKEN_EXPIRE_MINUTES
      = 30 := by
  refine ⟨?_, ?_, rfl⟩ <;>
    simp [AuthService.create_access_token, security.create_access_token]

/-- C2: `register` fails exactly when a user with the email already exists
at the start of the call; on that failure the store is returned unchanged
(nothing is created or persisted), and the failure is always
`DuplicateEmail`. -/
theorem C2_register_duplicate (H : String → String → String) (salt : String)
    (s : Store) (email password full_name : String) (now : Nat) :
    (∀ e, (AuthService.register H salt s email password full_name now).1
        = Except.error e →
      e = AuthError.DuplicateEmail
            ("Email " ++ email ++ " is already registered") ∧
      (AuthService.register H salt s email password full_name now).2 = s ∧
      ∃ u, PostgresUserRepository.get_by_email s email = some u) ∧
    ((∃ u, PostgresUserRepository.get_by_email s email = some u) →
      (AuthService.register H salt s email password full_name now).1
        = Except.error (AuthError.DuplicateEmail
            ("Email " ++ email ++ " is already registered"))) := by
  cases hf : PostgresUserRepository.get_by_email s email with
  | none =>
    constructor
    · intro e he
      simp [AuthService.register, hf] at he
    · rintro ⟨u, hu⟩
      exact absurd hu (by simp)
  | some v =>
    constructor
    · intro e he
      simp only [AuthService.register, hf] at he
      exact ⟨by simpa using he.symm, by simp [AuthService.register, hf],
        ⟨v, rfl⟩⟩
    · intro _
      simp [AuthService.register, hf]

/-- Witness for C2: registering an email already present in a concrete
one-user store fails with `DuplicateEmail` and leaves the store intact. -/
theorem C2_register_duplicate_witness :
    (AuthService.register (fun sa p => sa ++ p) "s2"
        ⟨[⟨1, "a@x.com", DigestStr.bcrypt "sa" "h", "A", true, false, 0, 0⟩],
          2⟩ "a@x.com" "Other456!" "B" 9).1
      = Except.error (AuthError.DuplicateEmail
          ("Email " ++ "a@x.com" ++ " is already registered")) ∧
    (AuthService.register (fun sa p => sa ++ p) "s2"
        ⟨[⟨1, "a@x.com", DigestStr.bcrypt "sa" "h", "A", true, false, 0, 0⟩],
          2⟩ "a@x.com" "Other456!" "B" 9).2
      = ⟨[⟨1, "a@x.com", DigestStr.bcrypt "sa" "h", "A", true, false, 0, 0⟩],
          2⟩ := by
  have h := C2_register_duplicate (fun sa p => sa ++ p) "s2"
    ⟨[⟨1, "a@x.com", DigestStr.bcrypt "sa" "h", "A", true, false, 0, 0⟩], 2⟩
    "a@x.com" "Other456!" "B" 9
  have herr := h.2 ⟨PostgresUserRepository.to_domain
    ⟨1, "a@x.com", DigestStr.bcrypt "sa" "h", "A", true, false, 0, 0⟩,
    by decide⟩
  exact ⟨herr, (h.1 _ herr).2.1⟩

/-- C7: the user that a successful `register` hands to the store's `create`
has `is_active = true`, `is_superuser = false`, unset id and timestamps,
and carries the hasher's digest of the plaintext — never the plaintext
itself; and when the email is free, `register` persists exactly that user
via `create`. -/
theorem C7_register_fresh_user (H : String → String → String)
    (salt email password full_name : String) :
    (AuthService.new_user H salt email password full_name).is_active
      = true ∧
    (AuthService.new_user H salt email password full_name).is_superuser
      = false ∧
    (AuthService.new_user H salt email password full_name).id = none ∧
    (AuthService.new_user H salt email password full_name).created_at
      = none ∧
    (AuthService.new_user H salt email password full_name).updated_at
      = none ∧
    (AuthService.new_user H salt email password full_name).hashed_password
      = security.get_password_hash H salt password ∧
    security.get_password_hash H salt password ≠ DigestStr.raw password ∧
    (∀ (s : Store) (now : Nat),
      PostgresUserRepository.get_by_email s email = none →
      AuthService.register H salt s email password full_name now
        = (Except.ok (PostgresUserRepository.create s
            (AuthService.new_user H salt email password full_name) now).2,
           (PostgresUserRepository.create s
            (AuthService.new_user H salt email password full_name) now).1)) := by
  refine ⟨rfl, rfl, rfl, rfl, rfl, rfl, ?_, ?_⟩
  · simp [security.get_password_hash]
  · intro s now hf
    simp [AuthService.register, hf]

/-- Witness for C7: a registration against the empty store goes through
`create` with the freshly built user. -/
theorem C7_register_fresh_user_witness :
    AuthService.register (fun sa p => sa ++ p) "sa" ⟨[], 0⟩
        "a@x.com" "pw" "A" 7
      = (Except.ok (PostgresUserRepository.create ⟨[], 0⟩
          (AuthService.new_user (fun sa p => sa ++ p) "sa" "a@x.com" "pw" "A")
          7).2,
         (PostgresUserRepository.create ⟨[], 0⟩
          (AuthService.new_user (fun sa p => sa ++ p) "sa" "a@x.com" "pw" "A")
          7).1) := by
  exact (C7_register_fresh_user (fun sa p => sa ++ p) "sa" "a@x.com" "pw"
    "A").2.2.2.2.2.2.2 ⟨[], 0⟩ 7 (by decide)

/-- C9 counterexample: as stated, the claim says `update` changes nothing
beyond email, full_name, is_active and is_superuser — but the store also
refreshes `updated_at` (the column's `onupdate` clock), so at a concrete
input the updated row's `updated_at` differs from its value before the
call. -/
theorem C9_update_counterexample :
    ¬ (∀ (s : Store) (u : User) (now : Nat) (out : Store × User),
        PostgresUserRepository.update s u now = Except.ok out →
        ∀ r2 ∈ out.1.rows, ∀ r ∈ s.rows, r2.id = r.id →
          r2.updated_at = r.updated_at ∧
          r2.hashed_password = r.hashed_password ∧
          r2.created_at = r.created_at) := by
  intro hall
  have h := hall
    ⟨[⟨1, "a@x.com", DigestStr.raw "h", "A", true, false, 0, 0⟩], 2⟩
    ⟨some "1", "b@x.com", DigestStr.raw "ignored", "A", true, false, none,
      none⟩ 5
    (⟨[⟨1, "b@x.com", DigestStr.raw "h", "A", true, false, 0, 5⟩], 2⟩,
     PostgresUserRepository.to_domain
       ⟨1, "b@x.com", DigestStr.raw "h", "A", true, false, 0, 5⟩)
    rfl
    ⟨1, "b@x.com", DigestStr.raw "h", "A", true, false, 0, 5⟩ (by decide)
    ⟨1, "a@x.com", DigestStr.raw "h", "A", true, false, 0, 0⟩ (by decide)
    rfl
  exact absurd h.1 (by decide)

/-- C9 (amended): for an existing user, `update` rewrites exactly the
matched row, taking email, full_name, is_active and is_superuser from the
argument and refreshing `updated_at` to the call time, while the row's id,
hashed_password and created_at keep their previous values. -/
theorem C9_update_frame (s : Store) (u : User) (now : Nat) (r : UserRow)
    (h : s.rows.find? (fun q => u.id == some (toString q.id)) = some r) :
    PostgresUserRepository.update s u now
      = Except.ok
          ({ s with rows := s.rows.map (fun q =>
              if q.id == r.id then PostgresUserRepository.updatedRow r u now
              else q) },
           PostgresUserRepository.to_domain
             (PostgresUserRepository.updatedRow r u now)) ∧
    (PostgresUserRepository.updatedRow r u now).email = u.email ∧
    (PostgresUserRepository.updatedRow r u now).full_name = u.full_name ∧
    (PostgresUserRepository.updatedRow r u now).is_active = u.is_active ∧
    (PostgresUserRepository.updatedRow r u now).is_superuser
      = u.is_superuser ∧
    (PostgresUserRepository.updatedRow r u now).updated_at = now ∧
    (PostgresUserRepository.updatedRow r u now).id = r.id ∧
    (PostgresUserRepository.updatedRow r u now).hashed_password
      = r.hashed_password ∧
    (PostgresUserRepository.updatedRow r u now).created_at = r.created_at := by
  refine ⟨?_, rfl, rfl, rfl, rfl, rfl, rfl, rfl, rfl⟩
  simp [PostgresUserRepository.update, h]

/-- Witness for C9 (amended) at a concrete one-row store. -/
theorem C9_update_frame_witness :
    PostgresUserRepository.update
        ⟨[⟨1, "a@x.com", DigestStr.raw "h", "A", true, false, 0, 0⟩], 2⟩
        ⟨some "1", "b@x.com", DigestStr.raw "ignored", "A", true, false,
          none, none⟩ 5
      = Except.ok
          (⟨[⟨1, "b@x.com", DigestStr.raw "h", "A", true, false, 0, 5⟩], 2⟩,
           PostgresUserRepository.to_domain
             ⟨1, "b@x.com", DigestStr.raw "h", "A", true, false, 0, 5⟩) := by
  have h := C9_update_frame
    ⟨[⟨1, "a@x.com", DigestStr.raw "h", "A", true, false, 0, 0⟩], 2⟩
    ⟨some "1", "b@x.com", DigestStr.raw "ignored", "A", true, false, none,
      none⟩ 5
    ⟨1, "a@x.com", DigestStr.raw "h", "A", true, false, 0, 0⟩ (by decide)
  exact h.1
